import Mathlib

/-!
Verification of the real-time presence-and-messaging relay of the
Shipper chat application.

The definitions below are a shallow embedding of the server-side code:

* `src/server/websocket.ts` — the socket server: connection handler
  (presence registry, online broadcast and snapshot), `status:request`,
  `message:send`, and the disconnect handler.
* `src/app/api/sessions/route.ts` — `POST` (find-or-create a session for a
  canonical user pair, with P2002 race fallback).
* `src/app/api/sessions/[id]/route.ts` — `GET` (paged message fetch).
* `src/app/api/messages/route.ts` — `POST` (message creation with
  membership checks).

The database (Prisma over the schema in
`src/prisma/migrations/20251111133144_add_unread_counts/migration.sql`)
is modelled as explicit state (`DB`) threaded through each handler.
Handlers suspend at each database call (the process is a single-threaded
event loop); where a claim is about a race, the interference of
concurrently dispatched tasks at one such suspension point is passed in
as an explicit function `DB → DB`.
-/

namespace ShipperChat

/-! ### JS string ordering

`[a, b].sort()` in the source uses the default JS comparator: elementwise
comparison of code units.  We model it as lexicographic comparison of the
characters' code points (identifiers in this app are ASCII cuids, where
the two orders agree). -/

/-- Lexicographic `≤` on character lists, comparing code points. -/
def listLeb : List Char → List Char → Bool
  | [], _ => true
  | _ :: _, [] => false
  | c :: cs, d :: ds =>
    if c.toNat < d.toNat then true
    else if d.toNat < c.toNat then false
    else listLeb cs ds

/-- JS default string comparison (`a <= b`). -/
def strLeb (a b : String) : Bool := listLeb a.data b.data

/-- `[a, b].sort()` for a two-element array, as used to canonicalize a
participant pair (`src/server/websocket.ts:210`,
`src/app/api/sessions/route.ts:137`). -/
def sortPair (a b : String) : String × String :=
  if strLeb a b then (a, b) else (b, a)

/-! ### Data model (Prisma schema) -/

/-- A `User` row (fields relevant to the relay). -/
structure User where
  id : String
  name : Option String
  email : String
  image : Option String
  provider : String
deriving DecidableEq

/-- A `ChatSession` row.  `updatedAt` is modelled as a logical clock value. -/
structure ChatSession where
  id : String
  user1Id : String
  user2Id : String
  isAiChat : Bool
  updatedAt : Nat
deriving DecidableEq

/-- A `Message` row.  `createdAt` is a logical clock value. -/
structure Message where
  id : String
  content : String
  senderId : String
  recipientId : String
  sessionId : String
  isAiMessage : Bool
  createdAt : Nat
deriving DecidableEq

/-- The `select {id name email image provider}` projection of a `User`,
as joined onto messages by the `include` clauses. -/
structure UserSel where
  id : String
  name : Option String
  email : String
  image : Option String
  provider : String
deriving DecidableEq

/-- The message payload shape built by the handlers: the persisted row
plus the joined sender/recipient projections (`messageData`,
`src/server/websocket.ts:271-280`). -/
structure FullMessage where
  id : String
  content : String
  senderId : String
  recipientId : String
  sessionId : String
  createdAt : Nat
  sender : UserSel
  recipient : UserSel
deriving DecidableEq

/-- The durable store.  `nextId` feeds generated identifiers, `now` is the
logical clock used for timestamps. -/
structure DB where
  users : List User
  sessions : List ChatSession
  messages : List Message
  nextId : Nat
  now : Nat
deriving DecidableEq

/-- Prisma errors the handlers can observe: `P2002` (unique-constraint
violation) and foreign-key violations. -/
inductive DbError
  | uniqueViolation
  | fkViolation
deriving DecidableEq

/-- A generated identifier (cuid in the source; modelled from a counter). -/
def freshId (tag : String) (db : DB) : String := tag ++ toString db.nextId

/-- `prisma.user.findUnique({where: {id}})`. -/
def findUser (db : DB) (uid : String) : Option User :=
  db.users.find? (fun u => u.id == uid)

/-- `prisma.chatSession.findUnique({where: {id}})`. -/
def findSessionById (db : DB) (sid : String) : Option ChatSession :=
  db.sessions.find? (fun s => s.id == sid)

/-- `prisma.chatSession.findUnique({where: {user1Id_user2Id: {..}}})` —
lookup by the unique compound key. -/
def findSessionByPair (db : DB) (u1 u2 : String) : Option ChatSession :=
  db.sessions.find? (fun s => s.user1Id == u1 && s.user2Id == u2)

/-- `selectUser` is the `select` projection applied to a joined row. -/
def selectUser (u : User) : UserSel :=
  ⟨u.id, u.name, u.email, u.image, u.provider⟩

/-- `prisma.chatSession.create({data: {user1Id, user2Id}})`.
Fails with `P2002` when a row with the same `(user1Id, user2Id)` compound
key exists (the `ChatSession_user1Id_user2Id_key` unique index) and with a
foreign-key violation when either participant has no `User` row. -/
def sessionCreate (db : DB) (u1 u2 : String) : Except DbError (ChatSession × DB) :=
  if (findSessionByPair db u1 u2).isSome then .error .uniqueViolation
  else if (findUser db u1).isNone || (findUser db u2).isNone then .error .fkViolation
  else
    let s : ChatSession := ⟨freshId "cs" db, u1, u2, false, db.now⟩
    .ok (s, { db with sessions := db.sessions ++ [s], nextId := db.nextId + 1, now := db.now + 1 })

/-- `prisma.message.create({data: {...}, include: {sender, recipient}})`.
Fails with a foreign-key violation when the sender, recipient, or session
row is missing; otherwise appends the row and returns it joined with the
sender/recipient projections. -/
def messageCreate (db : DB) (content senderId recipientId sessionId : String) :
    Except DbError (FullMessage × DB) :=
  match findUser db senderId, findUser db recipientId with
  | some su, some ru =>
    if (findSessionById db sessionId).isNone then .error .fkViolation
    else
      let m : Message := ⟨freshId "m" db, content, senderId, recipientId, sessionId, false, db.now⟩
      .ok (⟨m.id, m.content, m.senderId, m.recipientId, m.sessionId, m.createdAt,
            selectUser su, selectUser ru⟩,
           { db with messages := db.messages ++ [m], nextId := db.nextId + 1, now := db.now + 1 })
  | _, _ => .error .fkViolation

/-- `prisma.chatSession.update({where: {id}, data: {updatedAt: new Date()}})`. -/
def touchSession (db : DB) (sid : String) : DB :=
  { db with
    sessions := db.sessions.map (fun s => if s.id == sid then { s with updatedAt := db.now } else s),
    now := db.now + 1 }

/-! ### Presence Registry

`onlineUsers : Map<userId, socketId>` (`src/server/websocket.ts:9`),
modelled as an insertion-ordered association list. -/

abbrev Registry := List (String × String)

/-- `onlineUsers.get(userId)`. -/
def regGet (r : Registry) (u : String) : Option String :=
  (r.find? (fun p => p.1 == u)).map (fun p => p.2)

/-- `onlineUsers.set(userId, socketId)`: updates an existing entry in
place (JS `Map.set` keeps insertion order), otherwise appends. -/
def regSet (r : Registry) (u s : String) : Registry :=
  if (r.find? (fun p => p.1 == u)).isSome then
    r.map (fun p => if p.1 == u then (u, s) else p)
  else r ++ [(u, s)]

/-- `onlineUsers.delete(userId)`. -/
def regDelete (r : Registry) (u : String) : Registry :=
  r.filter (fun p => p.1 != u)

/-- `Array.from(onlineUsers.keys())`. -/
def regKeys (r : Registry) : List String := r.map (fun p => p.1)

/-! ### Connection Gateway (presence lifecycle) -/

/-- The socket server's presence state: the registry plus the set of
connected socket ids (the sockets `io` would fan a broadcast out to). -/
structure Gateway where
  onlineUsers : Registry
  sockets : List String
deriving DecidableEq

/-- Presence payloads emitted by the gateway handlers. -/
inductive GPayload
  | userOnline (userId : String)
  | userOffline (userId : String)
  | usersOnline (userIds : List String)
deriving DecidableEq

/-- An emitted presence event: `socket.emit`/`io.to(sid).emit` targets one
socket; `io.emit` broadcasts to every connected socket. -/
inductive GEmit
  | toSocket (socketId : String) (p : GPayload)
  | broadcast (p : GPayload)
deriving DecidableEq

/-- Connection-lifecycle events dispatched by the event loop.  Connect and
disconnect handlers close over the authenticated `userId` and the
socket id of the connection they fired on. -/
inductive GEvent
  | connect (userId socketId : String)
  | disconnect (userId socketId : String)
  | statusRequest (socketId : String)
deriving DecidableEq

/-- One dispatch of the connection-lifecycle handlers of
`src/server/websocket.ts`:
connect — lines 97-109 (`onlineUsers.set`, then `io.emit("user:online")`,
then `socket.emit("users:online", ...)` computed from the updated map);
`status:request` — lines 112-114;
disconnect — lines 301-309: `onlineUsers.delete(userId)` unconditionally
(the disconnecting socket id is not consulted) and `io.emit("user:offline")`. -/
def gatewayStep (g : Gateway) : GEvent → Gateway × List GEmit
  | .connect u s =>
    let g1 : Gateway := ⟨regSet g.onlineUsers u s, g.sockets ++ [s]⟩
    (g1, [.broadcast (.userOnline u),
          .toSocket s (.usersOnline (regKeys g1.onlineUsers))])
  | .statusRequest s =>
    (g, [.toSocket s (.usersOnline (regKeys g.onlineUsers))])
  | .disconnect u _sock =>
    (⟨regDelete g.onlineUsers u, g.sockets.erase _sock⟩,
     [.broadcast (.userOffline u)])

/-- The set of connections an emit reaches: `io.emit` reaches every
connected socket; a targeted emit reaches just that socket when it is
connected. -/
def gAudience (g : Gateway) : GEmit → List String
  | .broadcast _ => g.sockets
  | .toSocket s _ => if s ∈ g.sockets then [s] else []

/-- Run a sequence of lifecycle events through the gateway. -/
def gatewayRun (g : Gateway) (evs : List GEvent) : Gateway :=
  evs.foldl (fun g e => (gatewayStep g e).1) g

/-! ### Message Router (`message:send`, `src/server/websocket.ts:186-298`) -/

/-- The `message:send` request payload: `{recipientId, content, sessionId?}`. -/
structure MsgSendData where
  recipientId : String
  content : String
  sessionId : Option String
deriving DecidableEq

/-- Payloads emitted by the message handler. -/
inductive WsPayload
  | messageError (error : String)
  | messageReceive (m : FullMessage)
  | messageSent (m : FullMessage)
deriving DecidableEq

/-- An emitted message event: targeted (`socket.emit` / `io.to(sid).emit`)
or broadcast (`io.emit` — never used by the message handler). -/
inductive WsEmit
  | toSocket (socketId : String) (p : WsPayload)
  | broadcast (p : WsPayload)
deriving DecidableEq

/-- The input validation of the handler (`src/server/websocket.ts:195`):
`if (!recipientId || !content)` — both must be non-empty (JS falsiness of
strings is emptiness; an absent field is modelled as the empty string). -/
def wsValidate (data : MsgSendData) : Bool :=
  !(data.recipientId == "" || data.content == "")

/-- Outcome of the find-or-create block: a session lookup result together
with the store state, or an exception propagating to the handler's
catch-all (which carries the store state reached so far). -/
inductive ResolveOutcome
  | ok (s : Option ChatSession) (db : DB)
  | thrown (db : DB)
deriving DecidableEq

/-- The find-or-create block of the `message:send` handler
(`src/server/websocket.ts:202-233`).  With an explicit `sessionId` the
session is looked up by id, with no check that the sender or recipient is
a participant.  Otherwise the pair is canonicalized by `sort()` and looked
up; if absent, `create` is called.  `race` is the interference of
concurrently dispatched tasks at the await boundary between the pair
lookup and the create call.  There is no `P2002` recovery here: a create
that hits the unique constraint throws, and the error propagates to the
handler's catch-all. -/
def wsResolveSession (senderId : String) (data : MsgSendData) (db : DB)
    (race : DB → DB) : ResolveOutcome :=
  match data.sessionId with
  | some sid => .ok (findSessionById db sid) db
  | none =>
    let p := sortPair senderId data.recipientId
    match findSessionByPair db p.1 p.2 with
    | some s => .ok (some s) db
    | none =>
      let db1 := race db
      match sessionCreate db1 p.1 p.2 with
      | .ok (s, db2) => .ok (some s) db2
      | .error _ => .thrown db1

/-- The `message:send` handler (`src/server/websocket.ts:186-298`).
`senderId`/`senderSock` are the authenticated identity and socket of the
originating connection; `online` is the current presence registry.
Returns the emitted events (in order) and the resulting store state. -/
def wsMessageSend (senderId senderSock : String) (online : Registry)
    (data : MsgSendData) (db : DB) (race : DB → DB) : List WsEmit × DB :=
  if !wsValidate data then
    ([.toSocket senderSock (.messageError "Missing required fields: recipientId and content")], db)
  else
    match wsResolveSession senderId data db race with
    | .thrown db1 =>
      ([.toSocket senderSock (.messageError "Failed to send message")], db1)
    | .ok none db1 =>
      ([.toSocket senderSock (.messageError "Failed to create or find session")], db1)
    | .ok (some s) db1 =>
      match messageCreate db1 data.content senderId data.recipientId s.id with
      | .error _ => ([.toSocket senderSock (.messageError "Failed to send message")], db1)
      | .ok (fm, db2) =>
        let db3 := touchSession db2 s.id
        let recvEmits : List WsEmit :=
          match regGet online data.recipientId with
          | some rsock => [.toSocket rsock (.messageReceive fm)]
          | none => []
        (recvEmits ++ [.toSocket senderSock (.messageSent fm)], db3)

/-! ### HTTP routes -/

/-- Error responses of the API routes, by status class. -/
inductive ApiError
  | badRequest (msg : String)
  | notFound (msg : String)
  | forbidden (msg : String)
  | serverError (msg : String)
deriving DecidableEq

/-- No concurrent interference at a suspension point. -/
def noInterference (db : DB) : DB := db

/-- `POST /api/sessions` (`src/app/api/sessions/route.ts:79-259`), for an
authenticated current user (the 401 branch is outside this model).
`race1`/`race2` are the interference of concurrent tasks at the await
boundaries before the `create` call and before the `P2002` re-read.
A `P2002` from `create` falls back to re-reading the canonical pair; any
other thrown error reaches the route's catch-all (500). -/
def sessionsPOST (currentUserId otherUserId : String) (db : DB)
    (race1 race2 : DB → DB) : (Except ApiError ChatSession) × DB :=
  if otherUserId == "" then
    (.error (.badRequest "otherUserId is required"), db)
  else if currentUserId == otherUserId then
    (.error (.badRequest "Cannot create session with yourself"), db)
  else if (findUser db currentUserId).isNone then
    (.error (.notFound "Current user not found in database"), db)
  else if (findUser db otherUserId).isNone then
    (.error (.notFound "User not found"), db)
  else
    let p := sortPair currentUserId otherUserId
    match findSessionByPair db p.1 p.2 with
    | some s => (.ok s, db)
    | none =>
      let db1 := race1 db
      match sessionCreate db1 p.1 p.2 with
      | .ok (s, db2) => (.ok s, db2)
      | .error .uniqueViolation =>
        let db2 := race2 db1
        match findSessionByPair db2 p.1 p.2 with
        | some s => (.ok s, db2)
        | none => (.error (.serverError "Failed to create/find chat session"), db2)
      | .error .fkViolation =>
        (.error (.serverError "Failed to create/find chat session"), db1)

/-- `POST /api/messages` (`src/app/api/messages/route.ts:86-181`), for an
authenticated sender: validates presence of all three fields, verifies the
session exists and that sender and recipient are each a participant, then
creates the message and bumps the session timestamp. -/
def messagesPOST (senderId content recipientId sessionId : String)
    (db : DB) : (Except ApiError FullMessage) × DB :=
  if content == "" || recipientId == "" || sessionId == "" then
    (.error (.badRequest "content, recipientId, and sessionId are required"), db)
  else
    match findSessionById db sessionId with
    | none => (.error (.notFound "Chat session not found"), db)
    | some cs =>
      if cs.user1Id != senderId && cs.user2Id != senderId then
        (.error (.forbidden "Forbidden"), db)
      else if cs.user1Id != recipientId && cs.user2Id != recipientId then
        (.error (.badRequest "Recipient is not part of this session"), db)
      else
        match messageCreate db content senderId recipientId sessionId with
        | .error _ => (.error (.serverError "Failed to create message"), db)
        | .ok (fm, db1) => (.ok fm, touchSession db1 sessionId)

/-! ### Paged message fetch (`GET /api/sessions/[id]`) -/

/-- Ordering of messages by creation timestamp. -/
def msgLe (a b : Message) : Prop := a.createdAt ≤ b.createdAt

instance : DecidableRel msgLe := fun a b => Nat.decLe a.createdAt b.createdAt

instance : IsTotal Message msgLe := ⟨fun a b => Nat.le_total a.createdAt b.createdAt⟩

instance : IsTrans Message msgLe := ⟨fun _ _ _ => Nat.le_trans⟩

/-- The store's view of a session's messages ordered by `createdAt`
ascending (`orderBy: {createdAt: "asc"}`), modelled as a sort of the
session's rows. -/
def sessionMessagesAsc (db : DB) (sid : String) : List Message :=
  List.insertionSort msgLe (db.messages.filter (fun m => m.sessionId == sid))

/-- Join of the `include {sender, recipient}` projections onto a message
row.  The foreign keys guarantee the user rows exist; the defaults are
unreachable on rows created through the handlers above. -/
def joinMessage (db : DB) (m : Message) : FullMessage :=
  ⟨m.id, m.content, m.senderId, m.recipientId, m.sessionId, m.createdAt,
   selectUser ((findUser db m.senderId).getD ⟨m.senderId, none, "", none, ""⟩),
   selectUser ((findUser db m.recipientId).getD ⟨m.recipientId, none, "", none, ""⟩)⟩

/-- The successful response of `GET /api/sessions/[id]`: the session, the
requested page of joined messages, and the pagination block. -/
structure PagedSession where
  session : ChatSession
  messages : List FullMessage
  page : Nat
  limit : Nat
  total : Nat
  totalPages : Nat
deriving DecidableEq

/-- `GET /api/sessions/[id]` (`src/app/api/sessions/[id]/route.ts:5-117`),
for an authenticated requester, with `page` and `limit` already parsed
from the query string (route defaults: page 1, limit 50).
`skip = (page - 1) * limit`; the page is `skip`/`take` over the session's
messages ordered oldest to newest; `total` is a separate count query and
`totalPages = Math.ceil(total / limit)` (for `limit ≥ 1` this is the
natural-number ceiling `(total + limit - 1) / limit`). -/
def sessionGET (requesterId sid : String) (page limit : Nat) (db : DB) :
    Except ApiError PagedSession :=
  let skip := (page - 1) * limit
  match findSessionById db sid with
  | none => .error (.notFound "Chat session not found")
  | some cs =>
    if cs.user1Id != requesterId && cs.user2Id != requesterId then
      .error (.forbidden "Forbidden")
    else
      let pageMsgs := ((sessionMessagesAsc db sid).drop skip).take limit
      let total := (db.messages.filter (fun m => m.sessionId == sid)).length
      .ok ⟨cs, pageMsgs.map (joinMessage db), page, limit, total,
           (total + limit - 1) / limit⟩

/-! ### Concrete stores used to evaluate the handlers -/

/-- A registered user with the given identifier. -/
def mkUser (uid : String) : User := ⟨uid, none, uid, none, "jwt"⟩

/-- Four users and one existing session between `u1` and `u2`. -/
def exDb24 : DB :=
  ⟨[mkUser "u1", mkUser "u2", mkUser "u3", mkUser "u4"],
   [⟨"s1", "u1", "u2", false, 0⟩], [], 0, 0⟩

/-- A single registered user and an otherwise empty store. -/
def exDb1 : DB := ⟨[mkUser "u1"], [], [], 0, 0⟩

/-- Two registered users, no sessions. -/
def exDb12 : DB := ⟨[mkUser "u1", mkUser "u2"], [], [], 5, 0⟩

/-- Interference of a concurrent request that commits the session `s9`
for the canonical pair `(u1, u2)` while the current task is suspended. -/
def raceInsertS9 (d : DB) : DB :=
  { d with sessions := [⟨"s9", "u1", "u2", false, 0⟩] }

/-- Two users, one session, three messages in it (out of creation order in
the store) plus one message of another session. -/
def exDb8 : DB :=
  ⟨[mkUser "u1", mkUser "u2"], [⟨"sAB", "u1", "u2", false, 0⟩],
   [⟨"m1", "a", "u1", "u2", "sAB", false, 3⟩,
    ⟨"m2", "b", "u1", "u2", "sAB", false, 1⟩,
    ⟨"m3", "c", "u1", "u2", "sAB", false, 2⟩,
    ⟨"mX", "z", "u1", "u2", "other", false, 0⟩], 0, 10⟩

/-- No event in the list is a disconnect of identity `u` (from any
connection, current or stale). -/
def noDisconnectOf (u : String) (evs : List GEvent) : Bool :=
  evs.all (fun e => match e with
    | .disconnect v _ => v != u
    | _ => true)

/-! ### Helper lemmas -/

theorem char_toNat_inj {c d : Char} (h : c.toNat = d.toNat) : c = d := by
  apply Char.ext
  apply UInt32.ext
  simpa [Char.toNat, UInt32.toNat] using h

theorem listLeb_total (xs ys : List Char) : listLeb xs ys = true ∨ listLeb ys xs = true := by
  induction xs generalizing ys with
  | nil => left; rfl
  | cons c cs ih =>
    cases ys with
    | nil => right; rfl
    | cons d ds =>
      rcases Nat.lt_trichotomy c.toNat d.toNat with h | h | h
      · left; simp [listLeb, h]
      · rcases ih ds with h2 | h2
        · left; simp [listLeb, h, h2]
        · right; simp [listLeb, h.symm, h2]
      · right; simp [listLeb, h]

theorem listLeb_antisymm {xs ys : List Char} (h1 : listLeb xs ys = true)
    (h2 : listLeb ys xs = true) : xs = ys := by
  induction xs generalizing ys with
  | nil =>
    cases ys with
    | nil => rfl
    | cons d ds => simp [listLeb] at h2
  | cons c cs ih =>
    cases ys with
    | nil => simp [listLeb] at h1
    | cons d ds =>
      rcases Nat.lt_trichotomy c.toNat d.toNat with h | h | h
      · simp [listLeb, h, Nat.lt_asymm h] at h2
      · simp [listLeb, h] at h1 h2
        rw [char_toNat_inj h, ih h1 h2]
      · simp [listLeb, h, Nat.lt_asymm h] at h1

theorem strLeb_total (a b : String) : strLeb a b = true ∨ strLeb b a = true :=
  listLeb_total a.data b.data

theorem strLeb_antisymm {a b : String} (h1 : strLeb a b = true)
    (h2 : strLeb b a = true) : a = b := by
  obtain ⟨da⟩ := a
  obtain ⟨db⟩ := b
  simp only [strLeb] at h1 h2
  exact congrArg String.mk (listLeb_antisymm h1 h2)

theorem sortPair_comm {a b : String} (h : a ≠ b) : sortPair a b = sortPair b a := by
  unfold sortPair
  cases h1 : strLeb a b <;> cases h2 : strLeb b a <;> simp
  · rcases strLeb_total a b with ht | ht
    · rw [h1] at ht; cases ht
    · rw [h2] at ht; cases ht
  · exact absurd (strLeb_antisymm h1 h2) h

theorem sortPair_cases (a b : String) :
    sortPair a b = (a, b) ∨ sortPair a b = (b, a) := by
  unfold sortPair
  split
  · left; rfl
  · right; rfl

theorem mem_regKeys {r : Registry} {u : String} : u ∈ regKeys r ↔ ∃ p ∈ r, p.1 = u := by
  simp [regKeys]

theorem regGet_regDelete_self (r : Registry) (u : String) :
    regGet (regDelete r u) u = none := by
  induction r with
  | nil => rfl
  | cons p r ih =>
    simp only [regDelete, List.filter_cons] at *
    cases hp : (p.1 != u) with
    | false => simp only [hp, Bool.false_eq_true, if_false]; exact ih
    | true =>
      have hne : (p.1 == u) = false := by
        rw [bne_iff_ne] at hp
        exact beq_eq_false_iff_ne.mpr hp
      simp only [hp, if_true, regGet, List.find?_cons, hne]
      exact ih

theorem mem_regKeys_regSet_self (r : Registry) (u s : String) :
    u ∈ regKeys (regSet r u s) := by
  unfold regSet
  split
  · next hfind =>
    rw [List.find?_isSome] at hfind
    obtain ⟨p, hp, hpu⟩ := hfind
    rw [mem_regKeys]
    refine ⟨(fun q => if q.1 == u then (u, s) else q) p, List.mem_map_of_mem _ hp, ?_⟩
    simp [hpu]
  · rw [mem_regKeys]
    exact ⟨(u, s), by simp, rfl⟩

theorem mem_regKeys_regSet_mono (r : Registry) (v s u : String)
    (h : u ∈ regKeys r) : u ∈ regKeys (regSet r v s) := by
  unfold regSet
  split
  · rw [mem_regKeys] at h ⊢
    obtain ⟨p, hp, hpu⟩ := h
    refine ⟨(fun q => if q.1 == v then (v, s) else q) p, List.mem_map_of_mem _ hp, ?_⟩
    by_cases hv : (p.1 == v) = true
    · have h1 : p.1 = v := eq_of_beq hv
      simp [hv]
      rw [← h1]
      exact hpu
    · rw [Bool.not_eq_true] at hv
      simp only [hv, if_false]
      exact hpu
  · rw [mem_regKeys] at h ⊢
    obtain ⟨p, hp, hpu⟩ := h
    exact ⟨p, by simp [hp], hpu⟩

theorem mem_regKeys_regDelete (r : Registry) (v u : String) (hne : u ≠ v)
    (h : u ∈ regKeys r) : u ∈ regKeys (regDelete r v) := by
  rw [mem_regKeys] at h ⊢
  obtain ⟨p, hp, hpu⟩ := h
  refine ⟨p, ?_, hpu⟩
  unfold regDelete
  rw [List.mem_filter]
  refine ⟨hp, ?_⟩
  rw [bne_iff_ne, hpu]
  exact hne

theorem mem_keys_gatewayRun (u : String) (evs : List GEvent) : ∀ (g : Gateway),
    u ∈ regKeys g.onlineUsers → noDisconnectOf u evs = true →
    u ∈ regKeys (gatewayRun g evs).onlineUsers := by
  induction evs with
  | nil => intro g h _; exact h
  | cons e evs ih =>
    intro g h hnd
    simp only [noDisconnectOf, List.all_cons, Bool.and_eq_true] at hnd
    have hstep : u ∈ regKeys (gatewayStep g e).1.onlineUsers := by
      cases e with
      | connect v s => exact mem_regKeys_regSet_mono _ _ _ _ h
      | statusRequest s => exact h
      | disconnect v sk =>
        have hv : v ≠ u := by
          have := hnd.1
          rwa [bne_iff_ne] at this
        exact mem_regKeys_regDelete _ _ _ (Ne.symm hv) h
    have := ih (gatewayStep g e).1 hstep hnd.2
    simpa [gatewayRun, List.foldl_cons] using this

theorem sessionCreate_ok {db : DB} {u1 u2 : String} {s : ChatSession} {db2 : DB}
    (h : sessionCreate db u1 u2 = .ok (s, db2)) :
    s = ⟨freshId "cs" db, u1, u2, false, db.now⟩
    ∧ db2 = { db with
              sessions := db.sessions ++ [⟨freshId "cs" db, u1, u2, false, db.now⟩]
              nextId := db.nextId + 1
              now := db.now + 1 }
    ∧ findSessionByPair db u1 u2 = none := by
  unfold sessionCreate at h
  split at h
  · cases h
  · next hnone =>
    split at h
    · cases h
    · simp only [Except.ok.injEq, Prod.mk.injEq] at h
      obtain ⟨hs, hdb⟩ := h
      refine ⟨hs.symm, ?_, Option.not_isSome_iff_eq_none.mp (by simpa using hnone)⟩
      rw [← hdb]

theorem messageCreate_ok {db : DB} {c sId rId sid : String} {fm : FullMessage} {db2 : DB}
    (h : messageCreate db c sId rId sid = .ok (fm, db2)) :
    ∃ su ru, findUser db sId = some su ∧ findUser db rId = some ru
    ∧ fm = ⟨freshId "m" db, c, sId, rId, sid, db.now, selectUser su, selectUser ru⟩
    ∧ db2 = { db with
              messages := db.messages ++ [⟨freshId "m" db, c, sId, rId, sid, false, db.now⟩]
              nextId := db.nextId + 1
              now := db.now + 1 } := by
  cases hsu : findUser db sId with
  | none => simp [messageCreate, hsu] at h
  | some su =>
    cases hru : findUser db rId with
    | none => simp [messageCreate, hsu, hru] at h
    | some ru =>
      cases hsid : (findSessionById db sid).isNone with
      | true => simp [messageCreate, hsu, hru, hsid] at h
      | false =>
        simp only [messageCreate, hsu, hru, hsid, Bool.false_eq_true, if_false,
          Except.ok.injEq, Prod.mk.injEq] at h
        obtain ⟨hfm, hdb⟩ := h
        exact ⟨su, ru, rfl, rfl, hfm.symm, hdb.symm⟩

theorem sortPair_both (a b : String) :
    ((sortPair a b).1 = a ∨ (sortPair a b).2 = a)
    ∧ ((sortPair a b).1 = b ∨ (sortPair a b).2 = b) := by
  rcases sortPair_cases a b with h | h <;> rw [h] <;> simp

/-! ### Claim theorems -/

/-- C1, counterexample: the claim that a disconnect from a superseded
connection does not remove the newer connection's registry entry is false.
Run: `u` connects on `s1`, reconnects on `s2` (the record for `u` is now
`s2`), then the stale connection `s1` fires its disconnect — and `u`'s
entry is removed even though `s1` is not the connection on record. -/
theorem stale_disconnect_removes_newer_entry_cex :
    regGet (gatewayRun ⟨[], []⟩ [.connect "u" "s1", .connect "u" "s2"]).onlineUsers "u" = some "s2"
    ∧ ("s1" : String) ≠ "s2"
    ∧ regGet (gatewayRun ⟨[], []⟩
        [.connect "u" "s1", .connect "u" "s2", .disconnect "u" "s1"]).onlineUsers "u" = none := by
  decide

/-- C1, amended: the disconnect handler removes the identity from the
Presence Registry unconditionally — `onlineUsers.delete(userId)` does not
consult the disconnecting socket — and broadcasts the offline-presence
event, for every registry state and every disconnecting connection,
whether or not that connection is the one on record. -/
theorem disconnect_removal_unconditional (g : Gateway) (u sock : String) :
    regGet (gatewayStep g (.disconnect u sock)).1.onlineUsers u = none
    ∧ (gatewayStep g (.disconnect u sock)).2 = [.broadcast (.userOffline u)] :=
  ⟨regGet_regDelete_self g.onlineUsers u, rfl⟩

/-- C10: right after `u` connects on socket `s`, the `users:online`
snapshot sent to `s` is computed from the updated registry and contains
`u` itself; the `user:online` broadcast reaches every connected socket,
including `s`; and every later `status:request` reply — as long as no
disconnect event for identity `u` has been dispatched in between —
carries a user list containing `u`. -/
theorem connect_snapshot_includes_self (g : Gateway) (u s : String) :
    (gatewayStep g (.connect u s)).2 =
      [.broadcast (.userOnline u),
       .toSocket s (.usersOnline (regKeys (regSet g.onlineUsers u s)))]
    ∧ u ∈ regKeys (regSet g.onlineUsers u s)
    ∧ gAudience (gatewayStep g (.connect u s)).1 (.broadcast (.userOnline u)) =
        g.sockets ++ [s]
    ∧ s ∈ gAudience (gatewayStep g (.connect u s)).1 (.broadcast (.userOnline u))
    ∧ ∀ evs q, noDisconnectOf u evs = true →
        gatewayStep (gatewayRun (gatewayStep g (.connect u s)).1 evs) (.statusRequest q) =
          (gatewayRun (gatewayStep g (.connect u s)).1 evs,
           [.toSocket q (.usersOnline
             (regKeys (gatewayRun (gatewayStep g (.connect u s)).1 evs).onlineUsers))])
        ∧ u ∈ regKeys (gatewayRun (gatewayStep g (.connect u s)).1 evs).onlineUsers := by
  refine ⟨rfl, mem_regKeys_regSet_self _ _ _, rfl, ?_, ?_⟩
  · show s ∈ g.sockets ++ [s]
    simp
  · intro evs q hnd
    exact ⟨rfl, mem_keys_gatewayRun u evs _ (mem_regKeys_regSet_self _ _ _) hnd⟩

/-- Witness for C10 at a concrete input: another user `v` is online, `u`
connects, then an unrelated user `w` connects; `u` is in its own snapshot
and still in the registry afterwards. -/
theorem connect_snapshot_includes_self_witness :
    ("u" : String) ∈ regKeys (regSet [("v", "kv")] "u" "ks")
    ∧ ("u" : String) ∈ regKeys
        (gatewayRun (gatewayStep ⟨[("v", "kv")], ["kv"]⟩ (.connect "u" "ks")).1
          [.connect "w" "kw"]).onlineUsers := by
  have h := connect_snapshot_includes_self ⟨[("v", "kv")], ["kv"]⟩ "u" "ks"
  exact ⟨h.2.1, (h.2.2.2.2 [.connect "w" "kw"] "kq" (by decide)).2⟩

/-- C5: a `message:send` whose recipient is missing or whose content is
empty is rejected with a `message:error` naming the missing fields,
emitted to the sending connection only (a targeted emit, no broadcast),
with the store unchanged (no message appended, no session created);
and any request with a recipient and non-empty content passes the
validation. -/
theorem ws_send_validation (senderId senderSock : String) (online : Registry)
    (data : MsgSendData) (db : DB) (race : DB → DB) :
    (wsValidate data = false →
      wsMessageSend senderId senderSock online data db race =
        ([.toSocket senderSock
            (.messageError "Missing required fields: recipientId and content")], db))
    ∧ (data.recipientId ≠ "" → data.content ≠ "" → wsValidate data = true) := by
  constructor
  · intro h
    simp [wsMessageSend, h]
  · intro h1 h2
    simp [wsValidate, h1, h2]

/-- Witness for C5 at concrete inputs: empty content is rejected with the
missing-fields error and an unchanged store; non-empty content with a
recipient passes validation. -/
theorem ws_send_validation_witness :
    wsMessageSend "u1" "k1" [] ⟨"u2", "", none⟩ exDb12 noInterference =
      ([.toSocket "k1"
          (.messageError "Missing required fields: recipientId and content")], exDb12)
    ∧ wsValidate ⟨"u2", "x", none⟩ = true :=
  ⟨(ws_send_validation "u1" "k1" [] ⟨"u2", "", none⟩ exDb12 noInterference).1 (by decide),
   (ws_send_validation "u1" "k1" [] ⟨"u2", "x", none⟩ exDb12 noInterference).2
     (by decide) (by decide)⟩

/-- C2, counterexample: the participants invariant does not hold on the
`message:send` path with an explicit `sessionId`.  In a store whose
session `s1` pairs `u1` and `u2`, a send from `u3` to `u4` naming
`sessionId s1` persists a message owned by `s1` whose sender and
recipient are not participants of `s1` — the handler performs no
membership check on this path. -/
theorem ws_explicit_session_nonmember_cex :
    (wsMessageSend "u3" "k3" [] ⟨"u4", "hello", some "s1"⟩ exDb24 noInterference).2.messages =
      [⟨"m0", "hello", "u3", "u4", "s1", false, 0⟩]
    ∧ findSessionById exDb24 "s1" = some ⟨"s1", "u1", "u2", false, 0⟩
    ∧ ("u3" : String) ≠ "u1" ∧ ("u3" : String) ≠ "u2"
    ∧ ("u4" : String) ≠ "u1" ∧ ("u4" : String) ≠ "u2" := by
  decide

/-- C2, amended: the participants invariant holds on the paths that
resolve or check membership — `POST /api/messages` (which verifies both
sender and recipient against the session row) and `message:send` without
an explicit `sessionId` (where the session is found or created for the
canonical (sender, recipient) pair, so its two participants are exactly
the sender and the recipient).  The `message:send` path with an explicit
`sessionId` performs no such check. -/
theorem message_membership_on_checked_paths :
    (∀ senderId content recipientId sessionId (db : DB) (cs : ChatSession) fm db2,
      findSessionById db sessionId = some cs →
      messagesPOST senderId content recipientId sessionId db = (.ok fm, db2) →
      (fm.senderId = cs.user1Id ∨ fm.senderId = cs.user2Id)
      ∧ (fm.recipientId = cs.user1Id ∨ fm.recipientId = cs.user2Id))
    ∧ (∀ senderId (data : MsgSendData) (db : DB) race s db1,
      data.sessionId = none →
      wsResolveSession senderId data db race = .ok (some s) db1 →
      (s.user1Id = senderId ∨ s.user2Id = senderId)
      ∧ (s.user1Id = data.recipientId ∨ s.user2Id = data.recipientId)) := by
  constructor
  · intro senderId content recipientId sessionId db cs fm db2 hfind hpost
    cases hval : (content == "" || recipientId == "" || sessionId == "") with
    | true => simp [messagesPOST, hval] at hpost
    | false =>
      cases hsend : (cs.user1Id != senderId && cs.user2Id != senderId) with
      | true => simp [messagesPOST, hval, hfind, hsend] at hpost
      | false =>
        cases hrecip : (cs.user1Id != recipientId && cs.user2Id != recipientId) with
        | true => simp [messagesPOST, hval, hfind, hsend, hrecip] at hpost
        | false =>
          cases hmc : messageCreate db content senderId recipientId sessionId with
          | error e => simp [messagesPOST, hval, hfind, hsend, hrecip, hmc] at hpost
          | ok pr =>
            obtain ⟨fm1, db1⟩ := pr
            simp only [messagesPOST, hval, hfind, hsend, hrecip, hmc, Bool.false_eq_true,
              if_false, Prod.mk.injEq, Except.ok.injEq] at hpost
            obtain ⟨hfm, -⟩ := hpost
            obtain ⟨su, ru, -, -, hfmEq, -⟩ := messageCreate_ok hmc
            have hsid : fm.senderId = senderId := by rw [← hfm, hfmEq]
            have hrid : fm.recipientId = recipientId := by rw [← hfm, hfmEq]
            constructor
            · rcases Bool.and_eq_false_iff.mp hsend with h | h
              · left; rw [hsid, bne_eq_false_iff_eq.mp h]
              · right; rw [hsid, bne_eq_false_iff_eq.mp h]
            · rcases Bool.and_eq_false_iff.mp hrecip with h | h
              · left; rw [hrid, bne_eq_false_iff_eq.mp h]
              · right; rw [hrid, bne_eq_false_iff_eq.mp h]
  · intro senderId data db race s db1 hnone hres
    simp only [wsResolveSession, hnone] at hres
    obtain ⟨hA, hB⟩ := sortPair_both senderId data.recipientId
    cases hf : findSessionByPair db (sortPair senderId data.recipientId).1
        (sortPair senderId data.recipientId).2 with
    | some s0 =>
      rw [hf] at hres
      simp only [ResolveOutcome.ok.injEq, Option.some.injEq] at hres
      obtain ⟨hs0, -⟩ := hres
      have hpred := List.find?_some hf
      simp only [Bool.and_eq_true, beq_iff_eq] at hpred
      obtain ⟨h1, h2⟩ := hpred
      subst hs0
      constructor
      · rcases hA with h | h
        · left; rw [h1, h]
        · right; rw [h2, h]
      · rcases hB with h | h
        · left; rw [h1, h]
        · right; rw [h2, h]
    | none =>
      rw [hf] at hres
      cases hc : sessionCreate (race db) (sortPair senderId data.recipientId).1
          (sortPair senderId data.recipientId).2 with
      | error e => rw [hc] at hres; simp at hres
      | ok pr =>
        obtain ⟨s0, db2⟩ := pr
        rw [hc] at hres
        simp only [ResolveOutcome.ok.injEq, Option.some.injEq] at hres
        obtain ⟨hs0, -⟩ := hres
        obtain ⟨hsEq, -, -⟩ := sessionCreate_ok hc
        subst hs0
        rw [hsEq]
        constructor
        · rcases hA with h | h
          · left; exact h
          · right; exact h
        · rcases hB with h | h
          · left; exact h
          · right; exact h

/-- Witness for C2(amended) at concrete inputs: a message created through
`POST /api/messages` into session `s1` has both parties among `s1`'s
participants, and the session resolved by `message:send` without an
explicit id for `(u1, u2)` has exactly those participants. -/
theorem message_membership_on_checked_paths_witness :
    ((("u1" : String) = "u1" ∨ ("u1" : String) = "u2")
      ∧ (("u2" : String) = "u1" ∨ ("u2" : String) = "u2"))
    ∧ ((("u1" : String) = "u1" ∨ ("u2" : String) = "u1")
      ∧ (("u1" : String) = "u2" ∨ ("u2" : String) = "u2")) := by
  constructor
  · exact message_membership_on_checked_paths.1 "u1" "hello" "u2" "s1" exDb24
      ⟨"s1", "u1", "u2", false, 0⟩
      ⟨"m0", "hello", "u1", "u2", "s1", 0, selectUser (mkUser "u1"), selectUser (mkUser "u2")⟩
      (messagesPOST "u1" "hello" "u2" "s1" exDb24).2 (by rfl) (by rfl)
  · exact message_membership_on_checked_paths.2 "u1" ⟨"u2", "hello", none⟩ exDb24
      noInterference ⟨"s1", "u1", "u2", false, 0⟩ exDb24 (by rfl) (by rfl)

/-- C4: the self-pairing check exists only on the `POST /api/sessions`
path: a request pairing an identity with itself is rejected with the
400-class error and the store is unchanged (amended — the `message:send`
resolution path performs no such check, see the counterexample). -/
theorem sessions_post_rejects_self_pairing (u : String) (db : DB) (r1 r2 : DB → DB)
    (hu : u ≠ "") :
    sessionsPOST u u db r1 r2 =
      (.error (.badRequest "Cannot create session with yourself"), db) := by
  have h1 : (u == "") = false := beq_eq_false_iff_ne.mpr hu
  simp [sessionsPOST, h1]

/-- Witness for C4's amended theorem at a concrete input. -/
theorem sessions_post_rejects_self_pairing_witness :
    sessionsPOST "u1" "u1" exDb1 noInterference noInterference =
      (.error (.badRequest "Cannot create session with yourself"), exDb1) :=
  sessions_post_rejects_self_pairing "u1" exDb1 noInterference noInterference (by decide)

/-- C4, counterexample: the claim that self-pairing is rejected on every
resolution path is false.  A `message:send` from `u1` to itself (no
explicit session id) creates the session `(u1, u1)` and persists the
message into it instead of failing. -/
theorem ws_self_pairing_creates_session_cex :
    (wsMessageSend "u1" "k1" [] ⟨"u1", "hi", none⟩ exDb1 noInterference).2.sessions =
      [⟨"cs0", "u1", "u1", false, 2⟩]
    ∧ (wsMessageSend "u1" "k1" [] ⟨"u1", "hi", none⟩ exDb1 noInterference).2.messages.map
        Message.sessionId = ["cs0"] := by
  decide

/-- C3, amended for the API path: in `POST /api/sessions`, when the
canonical pair is absent at lookup time but a concurrent request commits
it before the `create` call, the create fails with the uniqueness
violation and the route falls back to re-reading and returning the
now-existing record with no error; and it surfaces the 500-class
`SessionCreationError` response exactly when that post-race re-read also
finds nothing. -/
theorem sessions_post_create_race_fallback :
    (∀ (u v : String) (db : DB) (race1 : DB → DB) (s : ChatSession),
      v ≠ "" → u ≠ v →
      (findUser db u).isSome → (findUser db v).isSome →
      findSessionByPair db (sortPair u v).1 (sortPair u v).2 = none →
      findSessionByPair (race1 db) (sortPair u v).1 (sortPair u v).2 = some s →
      sessionsPOST u v db race1 noInterference = (.ok s, race1 db))
    ∧ (∀ (u v : String) (db : DB) (race1 race2 : DB → DB),
      v ≠ "" → u ≠ v →
      (findUser db u).isSome → (findUser db v).isSome →
      findSessionByPair db (sortPair u v).1 (sortPair u v).2 = none →
      (findSessionByPair (race1 db) (sortPair u v).1 (sortPair u v).2).isSome →
      findSessionByPair (race2 (race1 db)) (sortPair u v).1 (sortPair u v).2 = none →
      sessionsPOST u v db race1 race2 =
        (.error (.serverError "Failed to create/find chat session"), race2 (race1 db))) := by
  constructor
  · intro u v db race1 s hv hne hcu hov hf0 hrace
    obtain ⟨xu, hxu⟩ := Option.isSome_iff_exists.mp hcu
    obtain ⟨xv, hxv⟩ := Option.isSome_iff_exists.mp hov
    have h1 : (v == "") = false := beq_eq_false_iff_ne.mpr hv
    have h2 : (u == v) = false := beq_eq_false_iff_ne.mpr hne
    simp [sessionsPOST, sessionCreate, h1, h2, hxu, hxv, hf0, hrace, noInterference]
  · intro u v db race1 race2 hv hne hcu hov hf0 hiso hre
    obtain ⟨xu, hxu⟩ := Option.isSome_iff_exists.mp hcu
    obtain ⟨xv, hxv⟩ := Option.isSome_iff_exists.mp hov
    have h1 : (v == "") = false := beq_eq_false_iff_ne.mpr hv
    have h2 : (u == v) = false := beq_eq_false_iff_ne.mpr hne
    simp [sessionsPOST, sessionCreate, h1, h2, hxu, hxv, hf0, hiso, hre]

/-- Witness for C3's amended theorem at a concrete input: with the pair
absent in the store and a racer committing `s9` before the create, the
route returns `s9` and no error. -/
theorem sessions_post_create_race_fallback_witness :
    sessionsPOST "u1" "u2" exDb12 raceInsertS9 noInterference =
      (.ok ⟨"s9", "u1", "u2", false, 0⟩, raceInsertS9 exDb12) :=
  sessions_post_create_race_fallback.1 "u1" "u2" exDb12 raceInsertS9
    ⟨"s9", "u1", "u2", false, 0⟩ (by decide) (by decide) (by decide) (by decide)
    (by decide) (by decide)

/-- C3, counterexample: the claim fails on the resolution performed
inside `message:send`.  Same race — pair absent at lookup, a racer
commits `s9` before the create — but the websocket handler has no
`P2002` fallback: the thrown uniqueness violation reaches the catch-all,
which emits `message:error` to the sender instead of returning the
existing record. -/
theorem ws_create_race_error_cex :
    wsMessageSend "u1" "k1" [] ⟨"u2", "hi", none⟩ exDb12 raceInsertS9 =
      ([.toSocket "k1" (.messageError "Failed to send message")], raceInsertS9 exDb12)
    ∧ findSessionByPair exDb12 "u1" "u2" = none
    ∧ findSessionByPair (raceInsertS9 exDb12) "u1" "u2" =
        some ⟨"s9", "u1", "u2", false, 0⟩ := by
  decide

/-- C7: session resolution is symmetric in the two identities.  The
canonical pair is the same for `(a, b)` and `(b, a)`, and after resolving
`(a, b)` — whether the session pre-existed or was just created — the
swapped call resolves to the same session record and leaves the store
unchanged (no second row for the unordered pair). -/
theorem session_resolution_symmetric (a b : String) (db : DB)
    (ha : a ≠ "") (hb : b ≠ "") (hab : a ≠ b)
    (hua : (findUser db a).isSome) (hub : (findUser db b).isSome) :
    sortPair a b = sortPair b a
    ∧ ∃ s db1, sessionsPOST a b db noInterference noInterference = (.ok s, db1)
      ∧ sessionsPOST b a db1 noInterference noInterference = (.ok s, db1) := by
  obtain ⟨ua, hxa⟩ := Option.isSome_iff_exists.mp hua
  obtain ⟨ub, hxb⟩ := Option.isSome_iff_exists.mp hub
  have hswap := sortPair_comm hab
  refine ⟨hswap, ?_⟩
  have ha1 : (a == "") = false := beq_eq_false_iff_ne.mpr ha
  have hb1 : (b == "") = false := beq_eq_false_iff_ne.mpr hb
  have hab1 : (a == b) = false := beq_eq_false_iff_ne.mpr hab
  have hba1 : (b == a) = false := beq_eq_false_iff_ne.mpr (Ne.symm hab)
  cases hf : findSessionByPair db (sortPair a b).1 (sortPair a b).2 with
  | some s =>
    refine ⟨s, db, ?_, ?_⟩
    · simp [sessionsPOST, hb1, hab1, hxa, hxb, hf, noInterference]
    · have hf2 : findSessionByPair db (sortPair b a).1 (sortPair b a).2 = some s := by
        rw [← hswap]; exact hf
      simp [sessionsPOST, ha1, hba1, hxa, hxb, hf2, noInterference]
  | none =>
    have hp1 : (findUser db (sortPair a b).1).isNone = false := by
      rcases sortPair_cases a b with hsp | hsp <;> rw [hsp] <;> simp [hxa, hxb]
    have hp2 : (findUser db (sortPair a b).2).isNone = false := by
      rcases sortPair_cases a b with hsp | hsp <;> rw [hsp] <;> simp [hxa, hxb]
    refine ⟨⟨freshId "cs" db, (sortPair a b).1, (sortPair a b).2, false, db.now⟩,
      { db with
        sessions := db.sessions ++
          [⟨freshId "cs" db, (sortPair a b).1, (sortPair a b).2, false, db.now⟩]
        nextId := db.nextId + 1
        now := db.now + 1 }, ?_, ?_⟩
    · simp [sessionsPOST, sessionCreate, hb1, hab1, hxa, hxb, hf, hp1, hp2, noInterference]
    · have hxa1 : findUser { db with
          sessions := db.sessions ++
            [⟨freshId "cs" db, (sortPair a b).1, (sortPair a b).2, false, db.now⟩]
          nextId := db.nextId + 1
          now := db.now + 1 } a = some ua := hxa
      have hxb1 : findUser { db with
          sessions := db.sessions ++
            [⟨freshId "cs" db, (sortPair a b).1, (sortPair a b).2, false, db.now⟩]
          nextId := db.nextId + 1
          now := db.now + 1 } b = some ub := hxb
      have hfind1 : findSessionByPair { db with
          sessions := db.sessions ++
            [⟨freshId "cs" db, (sortPair a b).1, (sortPair a b).2, false, db.now⟩]
          nextId := db.nextId + 1
          now := db.now + 1 } (sortPair b a).1 (sortPair b a).2 =
          some ⟨freshId "cs" db, (sortPair a b).1, (sortPair a b).2, false, db.now⟩ := by
        rw [← hswap]
        unfold findSessionByPair at hf ⊢
        rw [List.find?_append, hf]
        simp
      simp [sessionsPOST, ha1, hba1, hxa1, hxb1, hfind1, noInterference]

/-- Witness for C7 at a concrete input: resolving `(u2, u1)` and then
`(u1, u2)` yields the same session and an unchanged store. -/
theorem session_resolution_symmetric_witness :
    sortPair "u2" "u1" = sortPair "u1" "u2"
    ∧ ∃ s db1, sessionsPOST "u2" "u1" exDb12 noInterference noInterference = (.ok s, db1)
      ∧ sessionsPOST "u1" "u2" db1 noInterference noInterference = (.ok s, db1) :=
  session_resolution_symmetric "u2" "u1" exDb12 (by decide) (by decide) (by decide)
    (by decide) (by decide)

/-- C6: for a send that persists successfully, the handler pushes exactly
one `message:receive` carrying the persisted record (with the joined
sender/recipient projections) to the recipient's registered connection
when the Presence Registry holds one, emits nothing to the recipient when
it does not (and this is not an error), and in both cases emits exactly
one `message:sent` acknowledgment to the originating connection carrying
the same canonical record, whose row (with the server-assigned
identifier) is what was appended to the store. -/
theorem ws_send_delivery_and_ack (senderId senderSock : String) (online : Registry)
    (data : MsgSendData) (db : DB) (race : DB → DB) (s : ChatSession) (db1 : DB)
    (fm : FullMessage) (db2 : DB)
    (hv : wsValidate data = true)
    (hres : wsResolveSession senderId data db race = .ok (some s) db1)
    (hmc : messageCreate db1 data.content senderId data.recipientId s.id = .ok (fm, db2)) :
    (∀ rsock, regGet online data.recipientId = some rsock →
      (wsMessageSend senderId senderSock online data db race).1 =
        [.toSocket rsock (.messageReceive fm), .toSocket senderSock (.messageSent fm)])
    ∧ (regGet online data.recipientId = none →
      (wsMessageSend senderId senderSock online data db race).1 =
        [.toSocket senderSock (.messageSent fm)])
    ∧ (wsMessageSend senderId senderSock online data db race).2 = touchSession db2 s.id
    ∧ db2.messages = db1.messages ++
        [⟨fm.id, fm.content, fm.senderId, fm.recipientId, fm.sessionId, false, fm.createdAt⟩]
    ∧ fm.senderId = senderId ∧ fm.recipientId = data.recipientId
    ∧ fm.content = data.content ∧ fm.sessionId = s.id := by
  obtain ⟨su, ru, hsu, hru, hfmEq, hdbEq⟩ := messageCreate_ok hmc
  have hw : wsMessageSend senderId senderSock online data db race =
      ((match regGet online data.recipientId with
        | some rsock => [.toSocket rsock (.messageReceive fm)]
        | none => []) ++ [.toSocket senderSock (.messageSent fm)], touchSession db2 s.id) := by
    simp [wsMessageSend, hv, hres, hmc]
  refine ⟨?_, ?_, ?_, ?_, ?_, ?_, ?_, ?_⟩
  · intro rsock hr
    rw [hw]
    simp [hr]
  · intro hr
    rw [hw]
    simp [hr]
  · rw [hw]
  · rw [hdbEq, hfmEq]
  · rw [hfmEq]
  · rw [hfmEq]
  · rw [hfmEq]
  · rw [hfmEq]

/-- Witness for C6 at a concrete input: `u2` is online on socket `k2`, so
the send from `u1` produces exactly the receive event to `k2` and the
sent acknowledgment to `k1`, both carrying the persisted record `m0`. -/
theorem ws_send_delivery_and_ack_witness :
    (wsMessageSend "u1" "k1" [("u2", "k2")] ⟨"u2", "yo", none⟩ exDb24 noInterference).1 =
      [.toSocket "k2" (.messageReceive ⟨"m0", "yo", "u1", "u2", "s1", 0,
          selectUser (mkUser "u1"), selectUser (mkUser "u2")⟩),
       .toSocket "k1" (.messageSent ⟨"m0", "yo", "u1", "u2", "s1", 0,
          selectUser (mkUser "u1"), selectUser (mkUser "u2")⟩)] :=
  (ws_send_delivery_and_ack "u1" "k1" [("u2", "k2")] ⟨"u2", "yo", none⟩ exDb24
    noInterference ⟨"s1", "u1", "u2", false, 0⟩ exDb24
    ⟨"m0", "yo", "u1", "u2", "s1", 0, selectUser (mkUser "u1"), selectUser (mkUser "u2")⟩
    { exDb24 with messages := [⟨"m0", "yo", "u1", "u2", "s1", false, 0⟩], nextId := 1, now := 1 }
    (by decide) (by rfl) (by rfl)).1 "k2" (by rfl)

/-- C9: a `message:send` carrying an explicit `sessionId` for which no
session exists emits `message:error` to the sender and leaves the store
unchanged — no message row is created and no session is created for the
sender/recipient pair — even though validation passed. -/
theorem ws_send_unknown_session_id (senderId senderSock : String) (online : Registry)
    (data : MsgSendData) (db : DB) (race : DB → DB) (sid : String)
    (hv : wsValidate data = true) (hs : data.sessionId = some sid)
    (hfind : findSessionById db sid = none) :
    wsMessageSend senderId senderSock online data db race =
      ([.toSocket senderSock (.messageError "Failed to create or find session")], db) := by
  simp [wsMessageSend, wsResolveSession, hv, hs, hfind]

/-- Witness for C9 at a concrete input: a send with valid fields into the
nonexistent session `nope` yields the error and an unchanged store. -/
theorem ws_send_unknown_session_id_witness :
    wsMessageSend "u1" "k1" [] ⟨"u2", "hi", some "nope"⟩ exDb24 noInterference =
      ([.toSocket "k1" (.messageError "Failed to create or find session")], exDb24) :=
  ws_send_unknown_session_id "u1" "k1" [] ⟨"u2", "hi", some "nope"⟩ exDb24
    noInterference "nope" (by decide) (by decide) (by decide)

/-- C8: for a paged fetch with `page ≥ 1`, `limit ≥ 1` on an existing
session the requester participates in, the route succeeds; the returned
page is sorted oldest to newest by creation timestamp; its length is
`limit` except on the last page; its `i`-th entry is the message at
offset `(page-1)*limit + i` of the session's chronological order; and the
reported `totalPages` is the ceiling of the total message count over
`limit` (the least number of pages covering the count). -/
theorem session_get_pagination (requesterId sid : String) (page limit : Nat) (db : DB)
    (cs : ChatSession)
    (_hp : 1 ≤ page) (hl : 1 ≤ limit)
    (hfind : findSessionById db sid = some cs)
    (hmem : cs.user1Id = requesterId ∨ cs.user2Id = requesterId) :
    ∃ resp, sessionGET requesterId sid page limit db = .ok resp
      ∧ resp.session = cs ∧ resp.page = page ∧ resp.limit = limit
      ∧ resp.total = (sessionMessagesAsc db sid).length
      ∧ List.Sorted (fun x y : FullMessage => x.createdAt ≤ y.createdAt) resp.messages
      ∧ resp.messages.length = min limit (resp.total - (page - 1) * limit)
      ∧ (∀ i, ∀ hi : i < resp.messages.length,
          ∃ hj : (page - 1) * limit + i < (sessionMessagesAsc db sid).length,
            resp.messages.get ⟨i, hi⟩ =
              joinMessage db ((sessionMessagesAsc db sid).get ⟨(page - 1) * limit + i, hj⟩))
      ∧ resp.total ≤ resp.totalPages * limit
      ∧ (∀ n, resp.total ≤ n * limit → resp.totalPages ≤ n) := by
  have hmemb : (cs.user1Id != requesterId && cs.user2Id != requesterId) = false := by
    rcases hmem with h | h <;> simp [h]
  have hlen : (sessionMessagesAsc db sid).length =
      (db.messages.filter (fun m => m.sessionId == sid)).length :=
    List.length_insertionSort msgLe _
  refine ⟨⟨cs, (((sessionMessagesAsc db sid).drop ((page - 1) * limit)).take limit).map
      (joinMessage db), page, limit,
      (db.messages.filter (fun m => m.sessionId == sid)).length,
      ((db.messages.filter (fun m => m.sessionId == sid)).length + limit - 1) / limit⟩,
    ?_, rfl, rfl, rfl, hlen.symm, ?_, ?_, ?_, ?_, ?_⟩
  · simp [sessionGET, hfind, hmemb, sessionMessagesAsc]
  · have hs1 : List.Sorted msgLe (sessionMessagesAsc db sid) :=
      List.sorted_insertionSort msgLe _
    have hsub : (((sessionMessagesAsc db sid).drop ((page - 1) * limit)).take limit).Sublist
        (sessionMessagesAsc db sid) :=
      (List.take_sublist _ _).trans (List.drop_sublist _ _)
    exact List.Pairwise.map _ (fun a b hab => hab) (List.Pairwise.sublist hsub hs1)
  · simp [List.length_take, List.length_drop, hlen]
  · intro i hi
    have hi' : i < min limit ((sessionMessagesAsc db sid).length - (page - 1) * limit) := by
      simpa [List.length_take, List.length_drop] using hi
    have hj : (page - 1) * limit + i < (sessionMessagesAsc db sid).length := by
      have h1 := Nat.lt_min.mp hi'
      omega
    refine ⟨hj, ?_⟩
    rw [List.get_eq_getElem, List.get_eq_getElem, List.getElem_map, List.getElem_take,
      List.getElem_drop]
  · show (db.messages.filter (fun m => m.sessionId == sid)).length ≤
      (((db.messages.filter (fun m => m.sessionId == sid)).length + limit - 1) / limit) * limit
    have hdm := Nat.div_add_mod
      ((db.messages.filter (fun m => m.sessionId == sid)).length + limit - 1) limit
    have hmod : ((db.messages.filter (fun m => m.sessionId == sid)).length + limit - 1)
        % limit < limit := Nat.mod_lt _ (by omega)
    obtain ⟨K, hK⟩ : ∃ K, limit *
        (((db.messages.filter (fun m => m.sessionId == sid)).length + limit - 1) / limit)
        = K := ⟨_, rfl⟩
    rw [hK] at hdm
    rw [Nat.mul_comm, hK]
    omega
  · intro n hn
    have hn' : (db.messages.filter (fun m => m.sessionId == sid)).length ≤ n * limit := hn
    show (((db.messages.filter (fun m => m.sessionId == sid)).length + limit - 1) / limit) ≤ n
    by_contra hcon
    push_neg at hcon
    have h3 : limit * (n + 1) ≤ limit *
        (((db.messages.filter (fun m => m.sessionId == sid)).length + limit - 1) / limit) :=
      Nat.mul_le_mul_left limit (by omega)
    have hdm := Nat.div_add_mod
      ((db.messages.filter (fun m => m.sessionId == sid)).length + limit - 1) limit
    have hmod : ((db.messages.filter (fun m => m.sessionId == sid)).length + limit - 1)
        % limit < limit := Nat.mod_lt _ (by omega)
    obtain ⟨K, hK⟩ : ∃ K, limit *
        (((db.messages.filter (fun m => m.sessionId == sid)).length + limit - 1) / limit)
        = K := ⟨_, rfl⟩
    rw [hK] at hdm h3
    obtain ⟨M, hM⟩ : ∃ M, limit * n = M := ⟨_, rfl⟩
    have h2 : limit * (n + 1) = M + limit := by rw [Nat.mul_succ, hM]
    rw [Nat.mul_comm n limit, hM] at hn'
    omega

/-- Witness for C8 at a concrete input: page 2 with limit 2 of session
`sAB` in a store holding three messages for it. -/
theorem session_get_pagination_witness :
    ∃ resp, sessionGET "u1" "sAB" 2 2 exDb8 = .ok resp
      ∧ resp.session = ⟨"sAB", "u1", "u2", false, 0⟩ ∧ resp.page = 2 ∧ resp.limit = 2
      ∧ resp.total = (sessionMessagesAsc exDb8 "sAB").length
      ∧ List.Sorted (fun x y : FullMessage => x.createdAt ≤ y.createdAt) resp.messages
      ∧ resp.messages.length = min 2 (resp.total - (2 - 1) * 2)
      ∧ (∀ i, ∀ hi : i < resp.messages.length,
          ∃ hj : (2 - 1) * 2 + i < (sessionMessagesAsc exDb8 "sAB").length,
            resp.messages.get ⟨i, hi⟩ =
              joinMessage exDb8 ((sessionMessagesAsc exDb8 "sAB").get ⟨(2 - 1) * 2 + i, hj⟩))
      ∧ resp.total ≤ resp.totalPages * 2
      ∧ (∀ n, resp.total ≤ n * 2 → resp.totalPages ≤ n) :=
  session_get_pagination "u1" "sAB" 2 2 exDb8 ⟨"sAB", "u1", "u2", false, 0⟩
    (by decide) (by decide) (by decide) (by decide)

end ShipperChat
